import Mathlib

/-!
Verification development for the asynchronous query lifecycle manager of the
SQL client (`src/ui/main_window.py`, class `MainWindow`).

The embedding models the per-tab query lifecycle state held on `MainWindow`:
`tab_timers`, `running_queries`, the per-tab widgets read and written by the
lifecycle handlers (`query_editor`, `db_combo_box`, `message_view`,
`tab_status_label`, `results_stacked_widget`), the global cancel action, the
thread pool submissions and the query history.  Python dictionaries keyed by
tab widgets become association lists keyed by a tab identifier; `RunnableQuery`
objects (compared with `is` in the source) become task identifiers that are
fresh per submission.  Handlers that dereference a widget or a combo-box
selection that the source would crash on (`AttributeError`) return `none`.

`core/db_manager.py` and `core/query_worker.py` are referenced by
`src/ui/main_window.py` but are not part of this tree; the two definitions
below whose doc comments start with `Modelled from the spec:` stand in for
them, following the specification text.
-/

/-- Association-list lookup keyed by `Nat`, mirroring Python `dict.get`. -/
def lookupK {β : Type} (k : Nat) : List (Nat × β) → Option β
  | [] => none
  | (k1, v) :: rest => if k1 = k then some v else lookupK k rest

/-- Association-list key removal, mirroring Python `del d[k]`. -/
def eraseK {β : Type} (k : Nat) : List (Nat × β) → List (Nat × β)
  | [] => []
  | (k1, v) :: rest => if k1 = k then eraseK k rest else (k1, v) :: eraseK k rest

/-- Association-list insert/overwrite, mirroring Python `d[k] = v`. -/
def insertK {β : Type} (k : Nat) (v : β) (m : List (Nat × β)) : List (Nat × β) :=
  (k, v) :: eraseK k m

/-- Connection id and trimmed query text captured when a `RunnableQuery` is
constructed in `execute_query` (`RunnableQuery(conn_data, query, signals)`). -/
structure TaskInfo where
  connId : Nat
  query : String
deriving DecidableEq, Repr

/-- One row of the query history, as passed to
`DatabaseManager.save_query_to_history(connection_id, query, status, rows, elapsed)`. -/
structure HistoryEntry where
  connectionId : Nat
  queryText : String
  status : String
  rowCount : Nat
  elapsed : Nat
deriving DecidableEq, Repr

/-- The widgets of one worksheet tab that the lifecycle handlers read or write:
the query editor text, the combo-box connection selection (`none` when no
connection is selected), whether the editor stack shows the history page
(`editor_stack.currentIndex() == 1`), the message view, the tab status label,
and the current page of `results_stacked_widget` (3 = spinner). -/
structure TabState where
  editorText : String
  comboConn : Option Nat
  onHistoryView : Bool
  messageView : String
  statusLabel : String
  resultsIndex : Nat
deriving DecidableEq, Repr

/-- The `MainWindow` state relevant to the query lifecycle.
`tabTimers` maps a tab to the recorded `start_time` (presence of the entry is
the source's `tab in self.tab_timers`); `scheduledProgress` and
`scheduledWatchdog` hold the tabs whose progress `QTimer` / single-shot
timeout `QTimer` are currently scheduled (a `.stop()` or the single-shot
firing removes the tab); `runningQueries` maps a tab to the identifier of its
current `RunnableQuery`; `tasks` records the submission-time data each task
was constructed with; `cancelledTasks` holds tasks whose `cancel()` was
called; `poolStarted` holds tasks passed to `thread_pool.start`. -/
structure AppState where
  tabs : List Nat
  widgets : List (Nat × TabState)
  tabTimers : List (Nat × Nat)
  scheduledProgress : List Nat
  scheduledWatchdog : List Nat
  runningQueries : List (Nat × Nat)
  tasks : List (Nat × TaskInfo)
  cancelledTasks : List Nat
  poolStarted : List Nat
  history : List HistoryEntry
  historyLog : List HistoryEntry
  storeFails : Bool
  cancelEnabled : Bool
  statusBar : String
  statusLabelMain : String
  nextTaskId : Nat
  nextTabId : Nat
deriving DecidableEq, Repr

/-- Python `str.strip()`: drop leading and trailing whitespace.  Defined by
structural recursion over the character list so that concrete states reduce
inside the kernel. -/
def strip (s : String) : String :=
  ⟨((s.data.dropWhile Char.isWhitespace).reverse.dropWhile Char.isWhitespace).reverse⟩

/-- Python `str.endswith(suffix)`, by structural list recursion. -/
def endswith (s suffix : String) : Bool :=
  suffix.data.isSuffixOf s.data

/-- `MainWindow.QUERY_TIMEOUT` (milliseconds). -/
def QUERY_TIMEOUT : Nat := 60000

/-- Modelled from the spec: `DatabaseManager.save_query_to_history` lives in
`core/db_manager.py`, which is not in this tree.  Per the spec (§4.4, §7) the
append is fire-and-forget: a store failure is logged and never raised to the
caller, so the call always returns normally and only the history store (or
the log) changes. -/
def save_query_to_history (s : AppState) (e : HistoryEntry) : AppState :=
  if s.storeFails then { s with historyLog := e :: s.historyLog }
  else { s with history := e :: s.history }

/-- Synchronous result of `MainWindow.execute_query`, in source order: the
current tab is missing, the editor stack could not be found, the tab shows the
history view, a query is already running in this tab, the query does not end
with a semicolon, the connection or query is empty, or the query was started. -/
inductive ExecResult where
  | internalError
  | historyView
  | alreadyRunning
  | missingSemicolon
  | emptyConnOrQuery
  | started
deriving DecidableEq, Repr

/-- `MainWindow.execute_query` (src/ui/main_window.py lines 881-951), acting on
the tab `tab` (the source's `self.tab_widget.currentWidget()`); `now` is
`time.time()` at submission. -/
def execute_query (s : AppState) (tab : Nat) (now : Nat) : AppState × ExecResult :=
  match lookupK tab s.widgets with
  | none => (s, ExecResult.internalError)
  | some w =>
    if w.onHistoryView then (s, ExecResult.historyView)
    else if (lookupK tab s.runningQueries).isSome then (s, ExecResult.alreadyRunning)
    else
      let query := strip w.editorText
      if ¬ endswith query ";" then
        ({ s with statusBar := "Execution aborted: Missing semicolon." },
         ExecResult.missingSemicolon)
      else
        match w.comboConn with
        | none => ({ s with statusBar := "Connection or query is empty" },
                   ExecResult.emptyConnOrQuery)
        | some c =>
          if query = "" then
            ({ s with statusBar := "Connection or query is empty" },
             ExecResult.emptyConnOrQuery)
          else
            let tid := s.nextTaskId
            ({ s with
                widgets := insertK tab { w with resultsIndex := 3 } s.widgets,
                tabTimers := insertK tab now s.tabTimers,
                scheduledProgress := s.scheduledProgress.insert tab,
                scheduledWatchdog := s.scheduledWatchdog.insert tab,
                tasks := insertK tid ⟨c, query⟩ s.tasks,
                runningQueries := insertK tab tid s.runningQueries,
                poolStarted := s.poolStarted.insert tid,
                cancelEnabled := true,
                statusLabelMain := "Executing query...",
                nextTaskId := tid + 1 },
             ExecResult.started)

/-- `MainWindow.handle_query_result` (src/ui/main_window.py lines 959-989),
invoked with the tab bound by `partial` at submission time and the
`conn_data`/`query`/result payload carried by the worker's `finished` signal.
Stops and drops the tab's timers when present, unconditionally records a
`Success` history row, updates the result widgets, leaves the spinner
(`stop_spinner` with `success=True` shows page 0), and drops the tab from
`running_queries`.  Returns `none` where the source would raise (tab widget
not found). -/
def handle_query_result (s : AppState) (tab : Nat) (connId : Nat) (query : String)
    (rowCount : Nat) (elapsed : Nat) (isSelect : Bool) : Option AppState :=
  let s1 :=
    if (lookupK tab s.tabTimers).isSome then
      { s with scheduledProgress := s.scheduledProgress.erase tab,
               scheduledWatchdog := s.scheduledWatchdog.erase tab,
               tabTimers := eraseK tab s.tabTimers }
    else s
  let s2 := save_query_to_history s1 ⟨connId, query, "Success", rowCount, elapsed⟩
  match lookupK tab s2.widgets with
  | none => none
  | some w =>
    let msg := if isSelect then
        "Query executed successfully.\n\nTotal rows: " ++ toString rowCount
          ++ "\nTime: " ++ toString elapsed ++ " sec"
      else
        "Command executed successfully.\n\nRows affected: " ++ toString rowCount
          ++ "\nTime: " ++ toString elapsed ++ " sec"
    let st := if isSelect then
        "Query executed successfully | Total rows: " ++ toString rowCount
          ++ " | Time: " ++ toString elapsed ++ " sec"
      else
        "Command executed successfully | Rows affected: " ++ toString rowCount
          ++ " | Time: " ++ toString elapsed ++ " sec"
    let s3 := { s2 with
        widgets := insertK tab { w with messageView := msg, statusLabel := st,
                                        resultsIndex := 0 } s2.widgets,
        statusLabelMain := "Ready" }
    let s4 := if (lookupK tab s3.runningQueries).isSome then
        { s3 with runningQueries := eraseK tab s3.runningQueries }
      else s3
    some (if s4.runningQueries = [] then { s4 with cancelEnabled := false } else s4)

/-- Modelled from the spec: `RunnableQuery` lives in `core/query_worker.py`,
which is not in this tree.  It is constructed in `execute_query` as
`RunnableQuery(conn_data, query, signals)` and, per the spec (§6, Query
Executor contract and §4.1 `onExecutorSettled`), its `finished` signal carries
the connection and query text the worker was constructed with, i.e. the values
captured at submission.  This wrapper delivers a settle event for task `tid`
to `handle_query_result` with exactly those captured values. -/
def deliver_query_result (s : AppState) (tab : Nat) (tid : Nat)
    (rowCount : Nat) (elapsed : Nat) (isSelect : Bool) : Option AppState :=
  match lookupK tid s.tasks with
  | none => none
  | some info => handle_query_result s tab info.connId info.query rowCount elapsed isSelect

/-- `MainWindow.handle_query_error` (src/ui/main_window.py lines 991-1013).
Stops and drops the tab's timers when present, writes the error to the message
view and status label, records a `Failed` history row built from the tab's
current combo-box selection and current (trimmed) editor text, shows the
message page, and drops the tab from `running_queries`.  Returns `none` where
the source would raise (tab widget not found, or `currentData()` is `None`). -/
def handle_query_error (s : AppState) (tab : Nat) (errMsg : String) : Option AppState :=
  let s1 :=
    if (lookupK tab s.tabTimers).isSome then
      { s with scheduledProgress := s.scheduledProgress.erase tab,
               scheduledWatchdog := s.scheduledWatchdog.erase tab,
               tabTimers := eraseK tab s.tabTimers }
    else s
  match lookupK tab s1.widgets with
  | none => none
  | some w =>
    let w1 := { w with messageView := "Error:\n\n" ++ errMsg,
                       statusLabel := "Error: " ++ errMsg }
    let s2 := { s1 with widgets := insertK tab w1 s1.widgets }
    match w.comboConn with
    | none => none
    | some c =>
      let s3 := save_query_to_history s2 ⟨c, strip w.editorText, "Failed", 0, 0⟩
      let s4 := { s3 with statusLabelMain := "Error occurred",
                          widgets := insertK tab { w1 with resultsIndex := 1 } s3.widgets }
      let s5 := if (lookupK tab s4.runningQueries).isSome then
          { s4 with runningQueries := eraseK tab s4.runningQueries }
        else s4
      some (if s5.runningQueries = [] then { s5 with cancelEnabled := false } else s5)

/-- `MainWindow.handle_query_timeout` (src/ui/main_window.py lines 1039-1061),
invoked by the single-shot timeout `QTimer` with the tab and the
`RunnableQuery` it was armed for.  Guarded by
`self.running_queries.get(tab) is runnable` (task-handle identity): when the
guard fails the handler does nothing.  When it holds: signals the task to
cancel, writes the timeout message (which states `QUERY_TIMEOUT / 1000`
seconds) to the message view and status label, records a `Timed Out` history
row from the tab's current widget state, shows the message page, stops and
drops the progress timer entry, and drops the tab from `running_queries`. -/
def handle_query_timeout (s : AppState) (tab : Nat) (taskId : Nat) : Option AppState :=
  if lookupK tab s.runningQueries = some taskId then
    let s1 := { s with cancelledTasks := s.cancelledTasks.insert taskId }
    match lookupK tab s1.widgets with
    | none => none
    | some w =>
      let errMsg := "Error: Query Timed Out after " ++ toString (QUERY_TIMEOUT / 1000)
        ++ " seconds."
      let w1 := { w with messageView := errMsg, statusLabel := errMsg }
      let s2 := { s1 with widgets := insertK tab w1 s1.widgets }
      match w.comboConn with
      | none => none
      | some c =>
        let s3 := save_query_to_history s2
          ⟨c, strip w.editorText, "Timed Out", 0, QUERY_TIMEOUT / 1000⟩
        let s4 := { s3 with widgets := insertK tab { w1 with resultsIndex := 1 } s3.widgets }
        let s5 := if (lookupK tab s4.tabTimers).isSome then
            { s4 with scheduledProgress := s4.scheduledProgress.erase tab,
                      tabTimers := eraseK tab s4.tabTimers }
          else s4
        let s6 := if (lookupK tab s5.runningQueries).isSome then
            { s5 with runningQueries := eraseK tab s5.runningQueries }
          else s5
        let s7 := if s6.runningQueries = [] then { s6 with cancelEnabled := false } else s6
        some { s7 with statusLabelMain := "Error occurred" }
  else some s

/-- Firing of the single-shot timeout watchdog for `tab`: the `QTimer` leaves
the scheduled set by firing, then `handle_query_timeout` runs. -/
def fire_query_timeout (s : AppState) (tab : Nat) (taskId : Nat) : Option AppState :=
  handle_query_timeout { s with scheduledWatchdog := s.scheduledWatchdog.erase tab } tab taskId

/-- `MainWindow.cancel_current_query` (src/ui/main_window.py lines 1063-1089),
acting on the tab `tab` (the source's `self.tab_widget.currentWidget()`).
When no query is running in this tab it does nothing.  Otherwise: signals the
task to cancel, stops and drops both timers when present, writes the cancel
message, records a `Cancelled` history row from the tab's current widget
state, shows the message page, and drops the tab from `running_queries`. -/
def cancel_current_query (s : AppState) (tab : Nat) : Option AppState :=
  match lookupK tab s.runningQueries with
  | none => some s
  | some tid =>
    let s1 := { s with cancelledTasks := s.cancelledTasks.insert tid }
    let s2 := if (lookupK tab s1.tabTimers).isSome then
        { s1 with scheduledProgress := s1.scheduledProgress.erase tab,
                  scheduledWatchdog := s1.scheduledWatchdog.erase tab,
                  tabTimers := eraseK tab s1.tabTimers }
      else s1
    match lookupK tab s2.widgets with
    | none => none
    | some w =>
      let w1 := { w with messageView := "Query cancelled by user.",
                         statusLabel := "Query cancelled by user." }
      let s3 := { s2 with widgets := insertK tab w1 s2.widgets }
      match w.comboConn with
      | none => none
      | some c =>
        let s4 := save_query_to_history s3 ⟨c, strip w.editorText, "Cancelled", 0, 0⟩
        let s5 := { s4 with widgets := insertK tab { w1 with resultsIndex := 1 } s4.widgets,
                            statusLabelMain := "Query Cancelled" }
        let s6 := if (lookupK tab s5.runningQueries).isSome then
            { s5 with runningQueries := eraseK tab s5.runningQueries }
          else s5
        some (if s6.runningQueries = [] then { s6 with cancelEnabled := false } else s6)

/-- `MainWindow.close_tab` (src/ui/main_window.py lines 601-617), acting on the
tab `tab` (the source's `self.tab_widget.widget(index)`).  A running query's
task is cancelled and dropped from `running_queries`, both timers are stopped
and their entry dropped; the tab itself is removed only when more than one tab
is open, otherwise only the status bar message changes. -/
def close_tab (s : AppState) (tab : Nat) : AppState :=
  let s1 :=
    match lookupK tab s.runningQueries with
    | some tid =>
      let t := { s with cancelledTasks := s.cancelledTasks.insert tid,
                        runningQueries := eraseK tab s.runningQueries }
      if t.runningQueries = [] then { t with cancelEnabled := false } else t
    | none => s
  let s2 := if (lookupK tab s1.tabTimers).isSome then
      { s1 with scheduledProgress := s1.scheduledProgress.erase tab,
                scheduledWatchdog := s1.scheduledWatchdog.erase tab,
                tabTimers := eraseK tab s1.tabTimers }
    else s1
  if 1 < s2.tabs.length then { s2 with tabs := s2.tabs.erase tab }
  else { s2 with statusBar := "Must keep at least one tab" }

/-- `MainWindow.add_tab` (src/ui/main_window.py lines 399-599): opens a fresh
worksheet tab whose editor is empty and on the query view, with the combo box
selection `combo` (populated by `load_joined_items` from the connection
store). -/
def add_tab (s : AppState) (combo : Option Nat) : AppState :=
  let w : TabState := { editorText := "", comboConn := combo, onHistoryView := false,
                        messageView := "", statusLabel := "Ready", resultsIndex := 0 }
  { s with widgets := insertK s.nextTabId w s.widgets,
           tabs := s.tabs ++ [s.nextTabId],
           nextTabId := s.nextTabId + 1 }

/-- One controller operation of the lifecycle state machine: submit, executor
settled with a result, executor settled with an error, user cancel, timeout
watchdog fired, close session. -/
inductive Op where
  | submit (tab now : Nat)
  | settled (tab connId : Nat) (query : String) (rowCount elapsed : Nat) (isSelect : Bool)
  | errored (tab : Nat) (msg : String)
  | cancelReq (tab : Nat)
  | timeoutFired (tab tid : Nat)
  | closeSession (tab : Nat)

/-- The controller's transition function: each operation runs the
corresponding `MainWindow` handler; `none` marks a run on which the source
would raise. -/
def step (s : AppState) : Op → Option AppState
  | Op.submit tab now => some (execute_query s tab now).1
  | Op.settled tab c q rc el sel => handle_query_result s tab c q rc el sel
  | Op.errored tab m => handle_query_error s tab m
  | Op.cancelReq tab => cancel_current_query s tab
  | Op.timeoutFired tab tid => fire_query_timeout s tab tid
  | Op.closeSession tab => some (close_tab s tab)

/-- The state components other than the history store, its log and its
failure switch: everything the session observes. -/
structure ObsState where
  tabs : List Nat
  widgets : List (Nat × TabState)
  tabTimers : List (Nat × Nat)
  scheduledProgress : List Nat
  scheduledWatchdog : List Nat
  runningQueries : List (Nat × Nat)
  tasks : List (Nat × TaskInfo)
  cancelledTasks : List Nat
  poolStarted : List Nat
  cancelEnabled : Bool
  statusBar : String
  statusLabelMain : String
  nextTaskId : Nat
  nextTabId : Nat
deriving DecidableEq, Repr

/-- Projection of an `AppState` onto its session-observable components. -/
def observable (s : AppState) : ObsState :=
  ⟨s.tabs, s.widgets, s.tabTimers, s.scheduledProgress, s.scheduledWatchdog,
   s.runningQueries, s.tasks, s.cancelledTasks, s.poolStarted, s.cancelEnabled,
   s.statusBar, s.statusLabelMain, s.nextTaskId, s.nextTabId⟩

/-- The spec's timer/phase invariant: a tab holds a timers entry exactly when
it has a current running task. -/
def TimerPhaseInv (s : AppState) : Prop :=
  ∀ t : Nat, (lookupK t s.tabTimers).isSome = (lookupK t s.runningQueries).isSome

/-- Sample worksheet tab with a running query: the editor now reads
`SELECT 2;` and connection 5 is selected, while the running task was submitted
as `SELECT 1;` against connection 9 (the user edited both mid-flight). -/
def tabRunW : TabState :=
  ⟨"SELECT 2;", some 5, false, "", "Running", 3⟩

/-- Sample state with a single tab `1` whose query (task `7`) is running. -/
def sRun : AppState :=
  ⟨[1], [(1, tabRunW)], [(1, 1000)], [1], [1], [(1, 7)], [(7, ⟨9, "SELECT 1;"⟩)],
   [], [7], [], [], false, true, "", "Executing query...", 8, 2⟩

/-- Sample idle tab whose editor holds a query with no terminating `;`. -/
def tabIdleW : TabState :=
  ⟨"SELECT 1", some 5, false, "", "Ready", 0⟩

/-- Sample state with a single idle tab `1`. -/
def sIdle : AppState :=
  ⟨[1], [(1, tabIdleW)], [], [], [], [], [], [], [], [], [], false, false, "",
   "Ready", 0, 2⟩

/-- The state reached from `sRun` after the user cancels the running query:
the session has left `Running` and a `Cancelled` outcome was recorded. -/
def sAfterCancel : AppState :=
  (cancel_current_query sRun 1).getD sRun

/-- The state reached from `sAfterCancel` when the executor of the cancelled
task later settles with a one-row result and the worker's `finished` signal is
still delivered. -/
def sLateResult : AppState :=
  (handle_query_result sAfterCancel 1 9 "SELECT 1;" 1 2 true).getD sAfterCancel

/-- The state reached from `sRun` when the executor reports an error. -/
def sAfterError : AppState :=
  (handle_query_error sRun 1 "syntax error").getD sRun

/-- The state reached from `sRun` when the timeout watchdog fires for task 7. -/
def sAfterTimeout : AppState :=
  (fire_query_timeout sRun 1 7).getD sRun

/-- The state reached from `sRun` when the cancelled/settled task's result is
delivered through the worker signal payload (submission-captured values). -/
def sDelivered : AppState :=
  (deliver_query_result sRun 1 7 1 2 true).getD sRun

/-- Sample idle tab whose editor holds a well-terminated query with
surrounding whitespace. -/
def tabGoodW : TabState :=
  ⟨" SELECT 3; ", some 5, false, "", "Ready", 0⟩

/-- Sample state with a single idle tab `1` ready for a valid submission. -/
def sGood : AppState :=
  ⟨[1], [(1, tabGoodW)], [], [], [], [], [], [], [], [], [], false, false, "",
   "Ready", 11, 2⟩


theorem lookupK_eraseK {β : Type} (t k : Nat) (m : List (Nat × β)) :
    lookupK t (eraseK k m) = if t = k then none else lookupK t m := by
  induction m with
  | nil => simp [eraseK, lookupK]
  | cons p rest ih =>
    obtain ⟨k1, v⟩ := p
    by_cases h1 : k1 = k
    · by_cases h2 : t = k
      · subst h2
        simp [eraseK, lookupK, h1, ih]
      · have h3 : ¬ k1 = t := by omega
        have h4 : ¬ k = t := by omega
        simp [eraseK, lookupK, h1, h2, h3, h4, ih]
    · by_cases h2 : k1 = t
      · have h3 : ¬ t = k := by omega
        simp [eraseK, lookupK, h1, h2, h3]
      · simp [eraseK, lookupK, h1, h2, ih]

theorem eraseK_of_lookup_none {β : Type} (k : Nat) (m : List (Nat × β))
    (h : lookupK k m = none) : eraseK k m = m := by
  induction m with
  | nil => rfl
  | cons p rest ih =>
    obtain ⟨k1, v⟩ := p
    by_cases h1 : k1 = k
    · simp [lookupK, h1] at h
    · simp [lookupK, h1] at h
      simp [eraseK, h1, ih h]

theorem lookupK_insertK {β : Type} (t k : Nat) (v : β) (m : List (Nat × β)) :
    lookupK t (insertK k v m) = if k = t then some v else lookupK t m := by
  by_cases h : k = t
  · simp [insertK, lookupK, h]
  · have h2 : ¬ t = k := by omega
    simp [insertK, lookupK, h, h2, lookupK_eraseK]

theorem handle_query_result_maps (s : AppState) (tab c rc el : Nat) (q : String)
    (sel : Bool) (s2 : AppState)
    (h : handle_query_result s tab c q rc el sel = some s2) :
    s2.tabTimers = eraseK tab s.tabTimers ∧
      s2.runningQueries = eraseK tab s.runningQueries := by
  unfold handle_query_result at h
  cases htl : lookupK tab s.tabTimers <;>
    simp only [htl, save_query_to_history, Option.isSome_none, Option.isSome_some,
      Bool.false_eq_true, if_false, if_true, ite_true, ite_false] at h
  all_goals cases hsf : s.storeFails <;>
    try simp only [hsf, Bool.false_eq_true, Bool.true_eq_false, if_false, if_true,
      ite_true, ite_false] at h
  all_goals cases hw : lookupK tab s.widgets <;> try simp only [hw] at h
  all_goals try exact Option.noConfusion h
  all_goals cases hr : lookupK tab s.runningQueries <;>
    try simp only [hr, Option.isSome_none, Option.isSome_some, Bool.false_eq_true,
      if_false, if_true, ite_true, ite_false] at h
  all_goals split at h
  all_goals obtain rfl := Option.some.inj h
  all_goals refine ⟨?_, ?_⟩ <;>
    simp [eraseK_of_lookup_none, htl, hr]

theorem handle_query_error_maps (s : AppState) (tab : Nat) (m : String) (s2 : AppState)
    (h : handle_query_error s tab m = some s2) :
    s2.tabTimers = eraseK tab s.tabTimers ∧
      s2.runningQueries = eraseK tab s.runningQueries := by
  unfold handle_query_error at h
  cases htl : lookupK tab s.tabTimers <;>
    simp only [htl, Option.isSome_none, Option.isSome_some, Bool.false_eq_true,
      if_false, if_true, ite_true, ite_false] at h
  all_goals cases hw : lookupK tab s.widgets <;> try simp only [hw] at h
  all_goals try exact Option.noConfusion h
  all_goals rename_i w
  all_goals cases hc : w.comboConn <;> try simp only [hc] at h
  all_goals try exact Option.noConfusion h
  all_goals simp only [save_query_to_history] at h
  all_goals cases hsf : s.storeFails <;>
    try simp only [hsf, Bool.false_eq_true, Bool.true_eq_false, if_false, if_true,
      ite_true, ite_false] at h
  all_goals cases hr : lookupK tab s.runningQueries <;>
    try simp only [hr, Option.isSome_none, Option.isSome_some, Bool.false_eq_true,
      if_false, if_true, ite_true, ite_false] at h
  all_goals split at h
  all_goals obtain rfl := Option.some.inj h
  all_goals refine ⟨?_, ?_⟩ <;>
    simp [eraseK_of_lookup_none, htl, hr]

theorem cancel_current_query_maps (s : AppState) (tab : Nat) (s2 : AppState)
    (h : cancel_current_query s tab = some s2) :
    s2 = s ∨
      (s2.tabTimers = eraseK tab s.tabTimers ∧
        s2.runningQueries = eraseK tab s.runningQueries) := by
  unfold cancel_current_query at h
  cases hr : lookupK tab s.runningQueries <;> simp only [hr] at h
  · left
    exact (Option.some.inj h).symm
  · right
    cases htl : lookupK tab s.tabTimers <;>
      simp only [htl, Option.isSome_none, Option.isSome_some, Bool.false_eq_true,
        if_false, if_true, ite_true, ite_false] at h
    all_goals cases hw : lookupK tab s.widgets <;> try simp only [hw] at h
    all_goals try exact Option.noConfusion h
    all_goals rename_i w
    all_goals cases hc : w.comboConn <;> try simp only [hc] at h
    all_goals try exact Option.noConfusion h
    all_goals simp only [save_query_to_history] at h
    all_goals cases hsf : s.storeFails <;>
      try simp only [hsf, Bool.false_eq_true, Bool.true_eq_false, if_false, if_true,
        ite_true, ite_false] at h
    all_goals repeat' split at h
    all_goals obtain rfl := Option.some.inj h
    all_goals refine ⟨?_, ?_⟩ <;>
      solve
        | simp [eraseK_of_lookup_none, htl, hr]
        | simp_all [eraseK_of_lookup_none]

theorem handle_query_timeout_maps (s : AppState) (tab tid : Nat) (s2 : AppState)
    (h : handle_query_timeout s tab tid = some s2) :
    s2 = s ∨
      (s2.tabTimers = eraseK tab s.tabTimers ∧
        s2.runningQueries = eraseK tab s.runningQueries) := by
  unfold handle_query_timeout at h
  by_cases hg : lookupK tab s.runningQueries = some tid
  · rw [if_pos hg] at h
    right
    cases hw : lookupK tab s.widgets <;> try simp only [hw] at h
    all_goals try exact Option.noConfusion h
    all_goals rename_i w
    all_goals cases hc : w.comboConn <;> try simp only [hc] at h
    all_goals try exact Option.noConfusion h
    all_goals simp only [save_query_to_history] at h
    all_goals cases hsf : s.storeFails <;>
      try simp only [hsf, Bool.false_eq_true, Bool.true_eq_false, if_false, if_true,
        ite_true, ite_false] at h
    all_goals cases htl : lookupK tab s.tabTimers <;>
      try simp only [htl, Option.isSome_none, Option.isSome_some, Bool.false_eq_true,
        if_false, if_true, ite_true, ite_false] at h
    all_goals repeat' split at h
    all_goals obtain rfl := Option.some.inj h
    all_goals refine ⟨?_, ?_⟩ <;>
      solve
        | simp [eraseK_of_lookup_none, htl, hg]
        | simp_all [eraseK_of_lookup_none]
  · rw [if_neg hg] at h
    left
    exact (Option.some.inj h).symm

theorem execute_query_maps (s : AppState) (tab now : Nat) :
    ((execute_query s tab now).1.tabTimers = s.tabTimers ∧
      (execute_query s tab now).1.runningQueries = s.runningQueries) ∨
    ((execute_query s tab now).1.tabTimers = insertK tab now s.tabTimers ∧
      (execute_query s tab now).1.runningQueries = insertK tab s.nextTaskId s.runningQueries) := by
  unfold execute_query
  dsimp only
  repeat' split
  all_goals solve
    | (left; exact ⟨rfl, rfl⟩)
    | (right; exact ⟨rfl, rfl⟩)

theorem close_tab_maps (s : AppState) (tab : Nat) :
    (close_tab s tab).tabTimers = eraseK tab s.tabTimers ∧
      (close_tab s tab).runningQueries = eraseK tab s.runningQueries := by
  unfold close_tab
  cases hr : lookupK tab s.runningQueries <;>
    simp only [hr]
  all_goals cases htl : lookupK tab s.tabTimers <;>
    try simp only [htl, Option.isSome_none, Option.isSome_some, Bool.false_eq_true,
      if_false, if_true, ite_true, ite_false]
  all_goals repeat' split
  all_goals refine ⟨?_, ?_⟩ <;>
    solve
      | simp [eraseK_of_lookup_none, htl, hr]
      | simp_all [eraseK_of_lookup_none]

theorem inv_of_eraseK (s s2 : AppState) (tab : Nat) (hInv : TimerPhaseInv s)
    (h1 : s2.tabTimers = eraseK tab s.tabTimers)
    (h2 : s2.runningQueries = eraseK tab s.runningQueries) : TimerPhaseInv s2 := by
  intro t
  rw [h1, h2, lookupK_eraseK, lookupK_eraseK]
  by_cases ht : t = tab <;> simp [ht, hInv t]

theorem inv_of_insertK (s s2 : AppState) (tab v tid : Nat) (hInv : TimerPhaseInv s)
    (h1 : s2.tabTimers = insertK tab v s.tabTimers)
    (h2 : s2.runningQueries = insertK tab tid s.runningQueries) : TimerPhaseInv s2 := by
  intro t
  rw [h1, h2, lookupK_insertK, lookupK_insertK]
  by_cases ht : tab = t <;> simp [ht, hInv t]

/-- C7: every controller operation (submit, executor settled, executor error,
cancel, timeout fired, close session) preserves the invariant that a session
holds its progress-ticker/timeout-watchdog entry in `tab_timers` exactly when
it has a current task in `running_queries`, i.e. exactly when its phase is
Running. -/
theorem claim7_timer_phase_invariant_preserved (s s2 : AppState) (op : Op)
    (hInv : TimerPhaseInv s) (hstep : step s op = some s2) : TimerPhaseInv s2 := by
  cases op with
  | submit tab now =>
    obtain rfl := Option.some.inj hstep
    rcases execute_query_maps s tab now with ⟨h1, h2⟩ | ⟨h1, h2⟩
    · intro t
      rw [h1, h2]
      exact hInv t
    · exact inv_of_insertK s _ tab now s.nextTaskId hInv h1 h2
  | settled tab c q rc el sel =>
    obtain ⟨h1, h2⟩ := handle_query_result_maps s tab c rc el q sel s2 hstep
    exact inv_of_eraseK s s2 tab hInv h1 h2
  | errored tab m =>
    obtain ⟨h1, h2⟩ := handle_query_error_maps s tab m s2 hstep
    exact inv_of_eraseK s s2 tab hInv h1 h2
  | cancelReq tab =>
    rcases cancel_current_query_maps s tab s2 hstep with rfl | ⟨h1, h2⟩
    · exact hInv
    · exact inv_of_eraseK s s2 tab hInv h1 h2
  | timeoutFired tab tid =>
    rcases handle_query_timeout_maps _ tab tid s2 hstep with rfl | ⟨h1, h2⟩
    · exact hInv
    · exact inv_of_eraseK _ s2 tab hInv h1 h2
  | closeSession tab =>
    obtain rfl := Option.some.inj hstep
    obtain ⟨h1, h2⟩ := close_tab_maps s tab
    exact inv_of_eraseK s _ tab hInv h1 h2

/-- Witness for C7: the invariant holds of the concrete running state `sRun`
and is carried by the cancel step to the concrete state it produces. -/
theorem claim7_timer_phase_invariant_preserved_witness :
    TimerPhaseInv sRun ∧ TimerPhaseInv sAfterCancel := by
  have hInv : TimerPhaseInv sRun := by
    intro t
    by_cases h : 1 = t <;> simp [sRun, tabRunW, lookupK, h]
  exact ⟨hInv, claim7_timer_phase_invariant_preserved sRun sAfterCancel
    (Op.cancelReq 1) hInv (by rfl)⟩

/-- Counterexample for C1: in `sAfterCancel` the session has already left
Running via the user's cancel (no stored task, a `Cancelled` outcome shown and
recorded), yet the late executor settle for the very task that was cancelled
is processed in full: `handle_query_result` records a second outcome
(`Success` on top of `Cancelled`) and overwrites the emitted outcome message,
instead of being discarded by a stored-task-handle check. -/
theorem claim1_late_result_not_discarded_counterexample :
    lookupK 1 sAfterCancel.runningQueries = none ∧
    handle_query_result sAfterCancel 1 9 "SELECT 1;" 1 2 true = some sLateResult ∧
    sLateResult.history.map HistoryEntry.status = ["Success", "Cancelled"] ∧
    (lookupK 1 sAfterCancel.widgets).map TabState.messageView =
      some "Query cancelled by user." ∧
    (lookupK 1 sLateResult.widgets).map TabState.messageView ≠
      some "Query cancelled by user." := by
  refine ⟨rfl, rfl, rfl, rfl, ?_⟩
  decide

/-- C1 (amended): per session, the timeout path is guarded by stored
task-handle identity (`running_queries.get(tab) is runnable`) and the cancel
path by the presence of a stored task, so each of those two is a no-op once
the session has left Running; but the executor-settled path
(`handle_query_result`) performs no such check, so a late executor result
delivered after cancellation or timeout is processed again — it records a
second (`Success`) outcome rather than being discarded. -/
theorem claim1_guarded_and_unguarded_paths (s : AppState) (tab tid c rc el : Nat)
    (q : String) (sel : Bool) (w : TabState) :
    (lookupK tab s.runningQueries ≠ some tid →
      handle_query_timeout s tab tid = some s) ∧
    (lookupK tab s.runningQueries = none →
      cancel_current_query s tab = some s) ∧
    (lookupK tab s.runningQueries = none → lookupK tab s.widgets = some w →
      s.storeFails = false →
      (handle_query_result s tab c q rc el sel).map AppState.history =
        some (⟨c, q, "Success", rc, el⟩ :: s.history)) := by
  refine ⟨?_, ?_, ?_⟩
  · intro h
    unfold handle_query_timeout
    rw [if_neg h]
  · intro h
    unfold cancel_current_query
    simp [h]
  · intro hr hw hsf
    unfold handle_query_result
    cases htl : lookupK tab s.tabTimers <;>
      simp [htl, hw, hr, hsf, save_query_to_history, apply_ite AppState.history]

/-- Witness for C1 (amended): at the concrete post-cancel state, the stale
timeout and a second cancel are no-ops, while the late executor settle still
prepends a `Success` history row. -/
theorem claim1_guarded_and_unguarded_paths_witness :
    handle_query_timeout sAfterCancel 1 7 = some sAfterCancel ∧
    cancel_current_query sAfterCancel 1 = some sAfterCancel ∧
    (handle_query_result sAfterCancel 1 9 "SELECT 1;" 1 2 true).map AppState.history =
      some (⟨9, "SELECT 1;", "Success", 1, 2⟩ :: sAfterCancel.history) := by
  obtain ⟨h1, h2, h3⟩ := claim1_guarded_and_unguarded_paths sAfterCancel 1 7 9 1 2
    "SELECT 1;" true ⟨"SELECT 2;", some 5, false, "Query cancelled by user.",
      "Query cancelled by user.", 1⟩
  exact ⟨h1 (by decide), h2 (by rfl), h3 (by rfl) (by rfl) (by rfl)⟩

/-- Counterexample for C2: closing a tab whose query is running is a terminal
transition (the session leaves Running and its task is abandoned), yet
`close_tab` performs no history append at all — the store receives zero
appends, not exactly one, and the store did not fail. -/
theorem claim2_close_running_appends_nothing_counterexample :
    lookupK 1 sRun.runningQueries = some 7 ∧
    lookupK 1 (close_tab sRun 1).runningQueries = none ∧
    (close_tab sRun 1).history = [] ∧
    (close_tab sRun 1).historyLog = [] ∧
    sRun.storeFails = false :=
  ⟨rfl, rfl, rfl, rfl, rfl⟩

/-- C2 (amended): each of the four handler paths appends exactly one history
row whose status matches the outcome kind — `Success` for a result, `Failed`
for an executor error, `Cancelled` for a user cancel, `Timed Out` for the
watchdog — but closing the session while the query is running performs its
cancel transition with no history append. -/
theorem claim2_one_append_per_terminal_path (s : AppState)
    (tab tid c c2 rc el : Nat) (q m : String) (sel : Bool) (w : TabState)
    (hw : lookupK tab s.widgets = some w) (hc : w.comboConn = some c)
    (hsf : s.storeFails = false) :
    ((handle_query_result s tab c2 q rc el sel).map AppState.history =
        some (⟨c2, q, "Success", rc, el⟩ :: s.history)) ∧
    ((handle_query_error s tab m).map AppState.history =
        some (⟨c, strip w.editorText, "Failed", 0, 0⟩ :: s.history)) ∧
    (lookupK tab s.runningQueries = some tid →
      (cancel_current_query s tab).map AppState.history =
        some (⟨c, strip w.editorText, "Cancelled", 0, 0⟩ :: s.history)) ∧
    (lookupK tab s.runningQueries = some tid →
      (fire_query_timeout s tab tid).map AppState.history =
        some (⟨c, strip w.editorText, "Timed Out", 0, QUERY_TIMEOUT / 1000⟩ :: s.history)) ∧
    (close_tab s tab).history = s.history := by
  refine ⟨?_, ?_, ?_, ?_, ?_⟩
  · unfold handle_query_result
    cases htl : lookupK tab s.tabTimers <;>
      simp [htl, hw, hsf, save_query_to_history, apply_ite AppState.history]
  · unfold handle_query_error
    cases htl : lookupK tab s.tabTimers <;>
      simp [htl, hw, hc, hsf, save_query_to_history, apply_ite AppState.history]
  · intro hr
    unfold cancel_current_query
    cases htl : lookupK tab s.tabTimers <;>
      simp [hr, htl, hw, hc, hsf, save_query_to_history, apply_ite AppState.history]
  · intro hr
    unfold fire_query_timeout handle_query_timeout
    rw [if_pos (by exact hr)]
    cases htl : lookupK tab s.tabTimers <;>
      simp [hr, htl, hw, hc, hsf, save_query_to_history, apply_ite AppState.history]
  · unfold close_tab
    dsimp only
    repeat' split
    all_goals rfl

/-- Witness for C2 (amended): the four handler paths applied at the concrete
running state each append the matching row, and closing appends nothing. -/
theorem claim2_one_append_per_terminal_path_witness :
    ((handle_query_result sRun 1 9 "SELECT 1;" 1 2 true).map AppState.history =
        some (⟨9, "SELECT 1;", "Success", 1, 2⟩ :: sRun.history)) ∧
    ((handle_query_error sRun 1 "boom").map AppState.history =
        some (⟨5, "SELECT 2;", "Failed", 0, 0⟩ :: sRun.history)) ∧
    ((cancel_current_query sRun 1).map AppState.history =
        some (⟨5, "SELECT 2;", "Cancelled", 0, 0⟩ :: sRun.history)) ∧
    ((fire_query_timeout sRun 1 7).map AppState.history =
        some (⟨5, "SELECT 2;", "Timed Out", 0, 60⟩ :: sRun.history)) ∧
    (close_tab sRun 1).history = sRun.history := by
  obtain ⟨h1, h2, h3, h4, h5⟩ := claim2_one_append_per_terminal_path sRun 1 7 5 9 1 2
    "SELECT 1;" "boom" true tabRunW (by rfl) (by rfl) (by rfl)
  have h3 := h3 (by rfl)
  have h4 := h4 (by rfl)
  have ht : strip tabRunW.editorText = "SELECT 2;" := by decide
  have hq : QUERY_TIMEOUT / 1000 = 60 := by decide
  rw [ht] at h2 h3 h4
  rw [hq] at h4
  exact ⟨h1, h2, h3, h4, h5⟩

theorem close_tab_running_spec (s : AppState) (tab tid : Nat)
    (hr : lookupK tab s.runningQueries = some tid)
    (htl : (lookupK tab s.tabTimers).isSome) :
    tid ∈ (close_tab s tab).cancelledTasks ∧
    (close_tab s tab).scheduledProgress = s.scheduledProgress.erase tab ∧
    (close_tab s tab).scheduledWatchdog = s.scheduledWatchdog.erase tab ∧
    (close_tab s tab).history = s.history ∧
    (close_tab s tab).historyLog = s.historyLog ∧
    (close_tab s tab).widgets = s.widgets ∧
    (close_tab s tab).statusLabelMain = s.statusLabelMain := by
  unfold close_tab
  simp only [hr]
  repeat' split
  all_goals refine ⟨?_, ?_, ?_, ?_, ?_, ?_, ?_⟩ <;>
    solve
      | rfl
      | simp [List.mem_insert_iff]

theorem close_tab_tabs (s : AppState) (tab : Nat) :
    (close_tab s tab).tabs = if 1 < s.tabs.length then s.tabs.erase tab
      else s.tabs := by
  unfold close_tab
  dsimp only
  repeat' split
  all_goals simp_all

/-- Counterexample for C3: closing the tab whose query is running leaves every
widget untouched and appends no history row — no `Cancelled` outcome is
emitted and no `Cancelled` history record is created, contrary to the claim
that closing behaves as a cancel including its outcome. -/
theorem claim3_close_no_cancel_outcome_counterexample :
    lookupK 1 sRun.runningQueries = some 7 ∧
    (close_tab sRun 1).widgets = sRun.widgets ∧
    (close_tab sRun 1).history = [] ∧
    (close_tab sRun 1).statusLabelMain = sRun.statusLabelMain :=
  ⟨rfl, rfl, rfl, rfl⟩

/-- C3 (amended): closing a session whose phase is Running signals the running
task to cancel, stops both the progress ticker and the timeout watchdog, and
removes the session's entries from `running_queries` and `tab_timers`
entirely — but it emits no `Cancelled` outcome and records no `Cancelled`
history row (the widgets and the history are left untouched). -/
theorem claim3_close_running_cancels_silently (s : AppState) (tab tid : Nat)
    (hr : lookupK tab s.runningQueries = some tid)
    (htl : (lookupK tab s.tabTimers).isSome) :
    tid ∈ (close_tab s tab).cancelledTasks ∧
    lookupK tab (close_tab s tab).runningQueries = none ∧
    lookupK tab (close_tab s tab).tabTimers = none ∧
    (close_tab s tab).scheduledProgress = s.scheduledProgress.erase tab ∧
    (close_tab s tab).scheduledWatchdog = s.scheduledWatchdog.erase tab ∧
    (close_tab s tab).history = s.history ∧
    (close_tab s tab).historyLog = s.historyLog ∧
    (close_tab s tab).widgets = s.widgets := by
  obtain ⟨h1, h2, h3, h4, h5, h6, h7⟩ := close_tab_running_spec s tab tid hr htl
  obtain ⟨hm1, hm2⟩ := close_tab_maps s tab
  refine ⟨h1, ?_, ?_, h2, h3, h4, h5, h6⟩
  · rw [hm2, lookupK_eraseK]
    simp
  · rw [hm1, lookupK_eraseK]
    simp

/-- C10: at least one tab always exists — `close_tab` never shrinks the tab
list below one and `add_tab` grows it — and a close request for the last
remaining tab still cancels that tab's running query and stops its timers
while the tab itself survives. -/
theorem claim10_last_tab_survives (s : AppState) (tab tid : Nat) (combo : Option Nat)
    (hone : s.tabs = [tab])
    (hr : lookupK tab s.runningQueries = some tid)
    (htl : (lookupK tab s.tabTimers).isSome) :
    (close_tab s tab).tabs = [tab] ∧
    tid ∈ (close_tab s tab).cancelledTasks ∧
    lookupK tab (close_tab s tab).runningQueries = none ∧
    lookupK tab (close_tab s tab).tabTimers = none ∧
    (close_tab s tab).scheduledProgress = s.scheduledProgress.erase tab ∧
    (close_tab s tab).scheduledWatchdog = s.scheduledWatchdog.erase tab ∧
    (∀ s3 : AppState, 1 ≤ s3.tabs.length → 1 ≤ (close_tab s3 tab).tabs.length) ∧
    1 ≤ (add_tab s combo).tabs.length := by
  obtain ⟨h1, h2, h3, _, _, _, _⟩ := close_tab_running_spec s tab tid hr htl
  obtain ⟨hm1, hm2⟩ := close_tab_maps s tab
  refine ⟨?_, h1, ?_, ?_, h2, h3, ?_, ?_⟩
  · rw [close_tab_tabs, hone]
    simp
  · rw [hm2, lookupK_eraseK]
    simp
  · rw [hm1, lookupK_eraseK]
    simp
  · intro s3 hlen
    rw [close_tab_tabs]
    by_cases hgt : 1 < s3.tabs.length
    · rw [if_pos hgt]
      by_cases hm : tab ∈ s3.tabs
      · rw [List.length_erase_of_mem hm]
        omega
      · rw [List.erase_of_not_mem hm]
        exact hlen
    · rw [if_neg hgt]
      exact hlen
  · unfold add_tab
    simp

/-- Witness for C3 (amended) at the concrete running state. -/
theorem claim3_close_running_cancels_silently_witness :
    7 ∈ (close_tab sRun 1).cancelledTasks ∧
    lookupK 1 (close_tab sRun 1).runningQueries = none ∧
    lookupK 1 (close_tab sRun 1).tabTimers = none ∧
    (close_tab sRun 1).scheduledProgress = sRun.scheduledProgress.erase 1 ∧
    (close_tab sRun 1).scheduledWatchdog = sRun.scheduledWatchdog.erase 1 ∧
    (close_tab sRun 1).history = sRun.history ∧
    (close_tab sRun 1).historyLog = sRun.historyLog ∧
    (close_tab sRun 1).widgets = sRun.widgets :=
  claim3_close_running_cancels_silently sRun 1 7 rfl rfl

/-- Witness for C10 at the concrete single-tab running state. -/
theorem claim10_last_tab_survives_witness :
    (close_tab sRun 1).tabs = [1] ∧
    7 ∈ (close_tab sRun 1).cancelledTasks ∧
    lookupK 1 (close_tab sRun 1).runningQueries = none ∧
    lookupK 1 (close_tab sRun 1).tabTimers = none ∧
    (close_tab sRun 1).scheduledProgress = sRun.scheduledProgress.erase 1 ∧
    (close_tab sRun 1).scheduledWatchdog = sRun.scheduledWatchdog.erase 1 ∧
    (∀ s3 : AppState, 1 ≤ s3.tabs.length → 1 ≤ (close_tab s3 1).tabs.length) ∧
    1 ≤ (add_tab sRun none).tabs.length :=
  claim10_last_tab_survives sRun 1 7 none rfl rfl rfl

/-- C4: a submission on an idle, query-view tab whose stripped editor text is
empty or does not end with `;` is rejected synchronously as a validation
error (the missing-semicolon rejection): only the status bar changes, and in
particular no worker-pool task is started, no progress ticker or timeout
watchdog is started or armed, no history row is recorded, and the session
stays out of `running_queries` (phase Idle). -/
theorem claim4_validation_rejected_before_dispatch (s : AppState) (tab now : Nat)
    (w : TabState) (hw : lookupK tab s.widgets = some w)
    (hv : w.onHistoryView = false)
    (hr : lookupK tab s.runningQueries = none)
    (hq : strip w.editorText = "" ∨ endswith (strip w.editorText) ";" = false) :
    execute_query s tab now =
      ({ s with statusBar := "Execution aborted: Missing semicolon." },
        ExecResult.missingSemicolon) ∧
    (execute_query s tab now).1.runningQueries = s.runningQueries ∧
    (execute_query s tab now).1.tabTimers = s.tabTimers ∧
    (execute_query s tab now).1.scheduledProgress = s.scheduledProgress ∧
    (execute_query s tab now).1.scheduledWatchdog = s.scheduledWatchdog ∧
    (execute_query s tab now).1.poolStarted = s.poolStarted ∧
    (execute_query s tab now).1.history = s.history ∧
    (execute_query s tab now).1.historyLog = s.historyLog ∧
    lookupK tab (execute_query s tab now).1.runningQueries = none := by
  have hend : endswith (strip w.editorText) ";" = false := by
    rcases hq with h | h
    · rw [h]
      rfl
    · exact h
  have hmain : execute_query s tab now =
      ({ s with statusBar := "Execution aborted: Missing semicolon." },
        ExecResult.missingSemicolon) := by
    unfold execute_query
    rw [hw]
    simp [hv, hr, hend]
  refine ⟨hmain, ?_, ?_, ?_, ?_, ?_, ?_, ?_, ?_⟩ <;> rw [hmain]
  exact hr

/-- C5: a submission for a session that is already Running is rejected with
the already-running warning and the whole state is returned unchanged — the
in-flight task keeps running, no second task is dispatched, no timers start,
and no history row or outcome is produced; since `running_queries` maps each
tab to a single task, no two tasks are ever simultaneously current. -/
theorem claim5_already_running_rejected (s : AppState) (tab now : Nat)
    (w : TabState) (hw : lookupK tab s.widgets = some w)
    (hv : w.onHistoryView = false)
    (hr : (lookupK tab s.runningQueries).isSome) :
    execute_query s tab now = (s, ExecResult.alreadyRunning) := by
  unfold execute_query
  rw [hw]
  simp [hv, hr]

/-- Witness for C4 at the concrete idle state whose editor reads `SELECT 1`. -/
theorem claim4_validation_rejected_before_dispatch_witness :
    execute_query sIdle 1 50 =
      ({ sIdle with statusBar := "Execution aborted: Missing semicolon." },
        ExecResult.missingSemicolon) :=
  (claim4_validation_rejected_before_dispatch sIdle 1 50 tabIdleW rfl rfl rfl
    (Or.inr rfl)).1

/-- Witness for C5 at the concrete running state. -/
theorem claim5_already_running_rejected_witness :
    execute_query sRun 1 50 = (sRun, ExecResult.alreadyRunning) :=
  claim5_already_running_rejected sRun 1 50 tabRunW rfl rfl rfl

/-- C6: when the timeout watchdog fires for a session still Running with the
very task it was armed for, the controller signals the task to cancel, shows a
TimedOut outcome message stating the configured bound (`QUERY_TIMEOUT` is
60000 ms, i.e. 60 seconds), records a history row with status `Timed Out` and
elapsed 60, and moves the session to Idle immediately (dropped from
`running_queries` and `tab_timers`), while the executor task remains in the
worker pool's started set. -/
theorem claim6_timeout_fires_behaviour (s : AppState) (tab tid c : Nat)
    (w : TabState) (s2 : AppState)
    (hr : lookupK tab s.runningQueries = some tid)
    (hw : lookupK tab s.widgets = some w) (hc : w.comboConn = some c)
    (hsf : s.storeFails = false)
    (h : fire_query_timeout s tab tid = some s2) :
    QUERY_TIMEOUT = 60000 ∧ QUERY_TIMEOUT / 1000 = 60 ∧
    tid ∈ s2.cancelledTasks ∧
    (lookupK tab s2.widgets).map TabState.messageView =
      some ("Error: Query Timed Out after " ++ toString (QUERY_TIMEOUT / 1000)
        ++ " seconds.") ∧
    s2.history = ⟨c, strip w.editorText, "Timed Out", 0, QUERY_TIMEOUT / 1000⟩
      :: s.history ∧
    lookupK tab s2.runningQueries = none ∧
    lookupK tab s2.tabTimers = none ∧
    s2.poolStarted = s.poolStarted ∧
    s2.statusLabelMain = "Error occurred" := by
  unfold fire_query_timeout handle_query_timeout at h
  rw [if_pos (by exact hr)] at h
  cases htl : lookupK tab s.tabTimers <;>
    simp only [htl, hr, hw, hc, hsf, save_query_to_history, Option.isSome_none,
      Option.isSome_some, Bool.false_eq_true, if_false, if_true, ite_true,
      ite_false] at h
  all_goals repeat' split at h
  all_goals obtain rfl := Option.some.inj h
  all_goals refine ⟨rfl, rfl, ?_, ?_, ?_, ?_, ?_, ?_, ?_⟩ <;>
    solve
      | simp [lookupK_insertK, lookupK_eraseK, List.mem_insert_iff]
      | simp [eraseK_of_lookup_none, htl, lookupK_eraseK]

/-- Witness for C6 at the concrete running state, watchdog firing for task 7. -/
theorem claim6_timeout_fires_behaviour_witness :
    QUERY_TIMEOUT = 60000 ∧ QUERY_TIMEOUT / 1000 = 60 ∧
    7 ∈ sAfterTimeout.cancelledTasks ∧
    (lookupK 1 sAfterTimeout.widgets).map TabState.messageView =
      some ("Error: Query Timed Out after " ++ toString (QUERY_TIMEOUT / 1000)
        ++ " seconds.") ∧
    sAfterTimeout.history =
      ⟨5, strip tabRunW.editorText, "Timed Out", 0, QUERY_TIMEOUT / 1000⟩
        :: sRun.history ∧
    lookupK 1 sAfterTimeout.runningQueries = none ∧
    lookupK 1 sAfterTimeout.tabTimers = none ∧
    sAfterTimeout.poolStarted = sRun.poolStarted ∧
    sAfterTimeout.statusLabelMain = "Error occurred" :=
  claim6_timeout_fires_behaviour sRun 1 7 5 tabRunW sAfterTimeout rfl rfl rfl rfl rfl

/-- C8: a failure of the history-store append is non-fatal and unobservable to
the session: for every terminal handler, running it on a state whose store
fails yields exactly the same session-observable state (tabs, widgets, timers,
running set, pool, cancel affordance, status texts) as running it on a state
whose store succeeds — the transition to Idle, the timer stops and the
delivered outcome are identical; only the history store/log differ. -/
theorem claim8_store_failure_nonfatal (s : AppState) (tab tid c2 rc el : Nat)
    (q m : String) (sel : Bool) :
    ((handle_query_result { s with storeFails := true } tab c2 q rc el sel).map
        observable =
      (handle_query_result { s with storeFails := false } tab c2 q rc el sel).map
        observable) ∧
    ((handle_query_error { s with storeFails := true } tab m).map observable =
      (handle_query_error { s with storeFails := false } tab m).map observable) ∧
    ((cancel_current_query { s with storeFails := true } tab).map observable =
      (cancel_current_query { s with storeFails := false } tab).map observable) ∧
    ((fire_query_timeout { s with storeFails := true } tab tid).map observable =
      (fire_query_timeout { s with storeFails := false } tab tid).map observable) := by
  refine ⟨?_, ?_, ?_, ?_⟩
  · unfold handle_query_result
    cases htl : lookupK tab s.tabTimers <;>
      cases hw : lookupK tab s.widgets <;>
        cases hr : lookupK tab s.runningQueries <;>
          by_cases he : s.runningQueries = [] <;>
            by_cases he2 : eraseK tab s.runningQueries = [] <;>
              simp [htl, hw, hr, he, he2, save_query_to_history, observable, lookupK, eraseK]
  · unfold handle_query_error
    cases htl : lookupK tab s.tabTimers <;>
      cases hw : lookupK tab s.widgets <;>
        simp only [htl, hw, save_query_to_history, Option.isSome_none,
          Option.isSome_some, Bool.false_eq_true, if_false, if_true, ite_true,
          ite_false]
    all_goals rename_i w
    all_goals cases hc : w.comboConn <;>
      cases hr : lookupK tab s.runningQueries <;>
        by_cases he : s.runningQueries = [] <;>
          by_cases he2 : eraseK tab s.runningQueries = [] <;>
            simp [hc, hr, he, he2, observable, lookupK, eraseK]
  · unfold cancel_current_query
    cases hr : lookupK tab s.runningQueries <;>
      cases htl : lookupK tab s.tabTimers <;>
        cases hw : lookupK tab s.widgets <;>
          simp only [hr, htl, hw, save_query_to_history, Option.isSome_none,
            Option.isSome_some, Bool.false_eq_true, if_false, if_true, ite_true,
            ite_false]
    all_goals try rfl
    all_goals rename_i w
    all_goals cases hc : w.comboConn <;>
      by_cases he2 : eraseK tab s.runningQueries = [] <;>
        simp [hc, hr, he2, observable, lookupK, eraseK]
  · unfold fire_query_timeout handle_query_timeout
    by_cases hg : lookupK tab s.runningQueries = some tid
    · rw [if_pos (by exact hg), if_pos (by exact hg)]
      cases htl : lookupK tab s.tabTimers <;>
        cases hw : lookupK tab s.widgets <;>
          simp only [htl, hw, hg, save_query_to_history, Option.isSome_none,
            Option.isSome_some, Bool.false_eq_true, if_false, if_true, ite_true,
            ite_false]
      all_goals rename_i w
      all_goals cases hc : w.comboConn <;>
        by_cases he2 : eraseK tab s.runningQueries = [] <;>
          simp [hc, hg, he2, observable, lookupK, eraseK]
    · rw [if_neg (by exact hg), if_neg (by exact hg)]
      rfl

/-- C9: on the Failure, Cancelled and TimedOut paths the history row is built
from the tab's widget state at transition time — the current combo-box
connection `c` and the current stripped editor text — whereas a settle
delivered through the worker's signal payload records the connection and query
captured at submission (the values `execute_query` stores for the task), so an
edit made while the query runs changes what the non-success paths record but
not what the success path records. -/
theorem claim9_history_fields_source (s : AppState) (tab tid rc el c now : Nat)
    (w : TabState) (info : TaskInfo) (m : String) (sel : Bool)
    (hw : lookupK tab s.widgets = some w) (hc : w.comboConn = some c)
    (hsf : s.storeFails = false) :
    ((handle_query_error s tab m).map AppState.history =
        some (⟨c, strip w.editorText, "Failed", 0, 0⟩ :: s.history)) ∧
    (lookupK tab s.runningQueries = some tid →
      (cancel_current_query s tab).map AppState.history =
        some (⟨c, strip w.editorText, "Cancelled", 0, 0⟩ :: s.history)) ∧
    (lookupK tab s.runningQueries = some tid →
      (fire_query_timeout s tab tid).map AppState.history =
        some (⟨c, strip w.editorText, "Timed Out", 0,
          QUERY_TIMEOUT / 1000⟩ :: s.history)) ∧
    (lookupK tid s.tasks = some info →
      (deliver_query_result s tab tid rc el sel).map AppState.history =
        some (⟨info.connId, info.query, "Success", rc, el⟩ :: s.history)) ∧
    ((execute_query s tab now).2 = ExecResult.started →
      lookupK s.nextTaskId (execute_query s tab now).1.tasks =
        some ⟨c, strip w.editorText⟩) := by
  refine ⟨?_, ?_, ?_, ?_, ?_⟩
  · unfold handle_query_error
    cases htl : lookupK tab s.tabTimers <;>
      simp [htl, hw, hc, hsf, save_query_to_history, apply_ite AppState.history]
  · intro hr
    unfold cancel_current_query
    cases htl : lookupK tab s.tabTimers <;>
      simp [hr, htl, hw, hc, hsf, save_query_to_history, apply_ite AppState.history]
  · intro hr
    unfold fire_query_timeout handle_query_timeout
    rw [if_pos (by exact hr)]
    cases htl : lookupK tab s.tabTimers <;>
      simp [hr, htl, hw, hc, hsf, save_query_to_history, apply_ite AppState.history]
  · intro hinfo
    unfold deliver_query_result
    rw [hinfo]
    unfold handle_query_result
    cases htl : lookupK tab s.tabTimers <;>
      simp [htl, hw, hsf, save_query_to_history, apply_ite AppState.history]
  · intro h
    unfold execute_query at h ⊢
    rw [hw] at h ⊢
    by_cases hv : w.onHistoryView <;> simp only [hv, if_true, if_false,
      Bool.false_eq_true, ite_true, ite_false] at h ⊢
    · exact absurd h (by simp)
    · cases hrq : lookupK tab s.runningQueries <;>
        simp only [hrq, Option.isSome_none, Option.isSome_some,
          Bool.false_eq_true, if_false, if_true, ite_true, ite_false] at h ⊢
      · by_cases hsc : endswith (strip w.editorText) ";" <;>
          simp only [hsc, Bool.false_eq_true, not_false_iff, not_true,
            if_false, if_true, ite_true, ite_false] at h ⊢
        · rw [hc] at h ⊢
          by_cases hqe : strip w.editorText = "" <;>
            simp only [hqe, if_false, if_true, ite_true, ite_false] at h ⊢
          · exact absurd h (by simp)
          · simp [lookupK_insertK]
        · exact absurd h (by simp)
      · exact absurd h (by simp)

/-- Witness for C9: in `sRun` the user has edited the editor to `SELECT 2;`
on connection 5 while task 7 (submitted as `SELECT 1;` on connection 9) runs:
the error/cancel/timeout rows record the edited widget values, the delivered
success row records the submitted values, and a fresh submission captures the
stripped editor text of its tab. -/
theorem claim9_history_fields_source_witness :
    ((handle_query_error sRun 1 "boom2").map AppState.history =
        some (⟨5, strip tabRunW.editorText, "Failed", 0, 0⟩ :: sRun.history)) ∧
    ((cancel_current_query sRun 1).map AppState.history =
        some (⟨5, strip tabRunW.editorText, "Cancelled", 0, 0⟩ :: sRun.history)) ∧
    ((fire_query_timeout sRun 1 7).map AppState.history =
        some (⟨5, strip tabRunW.editorText, "Timed Out", 0,
          QUERY_TIMEOUT / 1000⟩ :: sRun.history)) ∧
    ((deliver_query_result sRun 1 7 1 2 true).map AppState.history =
        some (⟨9, "SELECT 1;", "Success", 1, 2⟩ :: sRun.history)) ∧
    lookupK 11 (execute_query sGood 1 50).1.tasks =
      some ⟨5, strip tabGoodW.editorText⟩ := by
  obtain ⟨h1, h2, h3, h4, _⟩ := claim9_history_fields_source sRun 1 7 1 2 5 50
    tabRunW ⟨9, "SELECT 1;"⟩ "boom2" true rfl rfl rfl
  obtain ⟨_, _, _, _, h5⟩ := claim9_history_fields_source sGood 1 0 0 0 5 50
    tabGoodW ⟨0, ""⟩ "x" true rfl rfl rfl
  exact ⟨h1, h2 rfl, h3 rfl, h4 rfl, h5 rfl⟩
